import Mathlib

/-!
Verification of the GPS asset tracker reading-enrichment pipeline
(`src/server.js`) against its natural-language specification.

Modelling conventions (shallow embedding of the JavaScript source):

* JSON request bodies are modelled by the inductive `Json`; numeric JSON
  literals are rationals (`ℚ`), since wire-format JSON numbers are finite
  decimals.  Object bodies are association lists keyed by strings.
* JavaScript `null`/`undefined` field values are modelled by `Option`:
  a missing field (`undefined`) and an explicit `null` both surface as
  `none` at the points where the source treats them alike.
* `NaN` produced by `Number(...)` coercion is modelled by `none` in an
  `Option ℚ` / `Option ℝ` result; the arithmetic combinators `jsAdd`,
  `jsMul`, `jsSub`, `jsMax`, `jsSqrt` propagate `none` exactly as IEEE
  arithmetic propagates `NaN`.  Infinities cannot arise on any path of
  this program (all divisors are the nonzero constants 16384 and 1000 or
  a `1e-9`-floored value), so `Option ℝ` is a faithful numeric domain.
* Derived quantities (haversine distance, orientation angles) live in
  `ℝ` with `Real.sin`, `Real.cos`, `Real.arctan`, `Real.sqrt`; `atan2`
  is the standard piecewise definition of JavaScript `Math.atan2` on
  (non-NaN) reals.
* The Express handler for `POST /api/readings` is the function `ingest`;
  its `try`/`catch` wrapper can only reach the `catch` arm if the body
  of the `try` throws, and no expression in the `try` block can throw on
  any JSON-representable input (`req.body || {}` eliminates the only
  nullish dereference), so `ingest` is a total function returning the
  success response.  `Date.now()` is passed in as the parameter `now`.
-/

/-- A JSON value as delivered by the body parser.  Numbers are rationals
(JSON numeric literals are finite decimals).  Objects are association
lists; `JSON.parse` keeps the last duplicate key, and the bodies studied
here have distinct keys, so first-match lookup is adequate. -/
inductive Json where
  | null
  | bool (b : Bool)
  | num (q : ℚ)
  | str (s : String)
  | arr (elems : List Json)
  | obj (fields : List (String × Json))

/-- JavaScript truthiness of a JSON value: `null`, `false`, `0` and the
empty string are falsy, every other JSON value is truthy. -/
def Json.truthy : Json → Bool
  | .null => false
  | .bool b => b
  | .num q => decide (q ≠ 0)
  | .str s => decide (s ≠ "")
  | .arr _ => true
  | .obj _ => true

/-- Property access `v.k`: a key lookup on objects, `undefined` (= `none`)
on every non-object value. -/
def Json.get : Json → String → Option Json
  | .obj fields, k => fields.lookup k
  | _, _ => none

/-- JavaScript `Number(v)` coercion into the NaN-as-`none` model.
`Number(undefined)` is `NaN`, `Number(null)` is `0`, booleans map to 0/1.
Strings: blank strings coerce to `0`, integer literals to their value;
decimal-fraction strings are modelled as `NaN` (no claim exercises them).
Arrays: `[]` is `0`, a singleton numeric array unwraps, all other arrays
and all objects are `NaN`. -/
def Json.toNumber : Json → Option ℚ
  | .null => some 0
  | .bool b => some (if b then 1 else 0)
  | .num q => some q
  | .str s => if s.trim = "" then some 0 else (s.trim.toInt?).map fun n => (n : ℚ)
  | .arr [] => some 0
  | .arr [.num q] => some q
  | .arr _ => none
  | .obj _ => none

/-- `Number(v)` applied to a possibly-`undefined` property value. -/
def jsNumber : Option Json → Option ℚ
  | none => none
  | some j => j.toNumber

/-- JavaScript `v || d` where `v` is a possibly-`undefined` JSON value and
`d` a JSON default: yields `d` when `v` is missing or falsy. -/
def jsOr (v : Option Json) (d : Json) : Json :=
  match v with
  | some j => if j.truthy then j else d
  | none => d

/-- JavaScript `v || null` (source lines 54-55, `body.accel || null`):
missing and falsy values become `null` (= `none`), truthy values are kept
verbatim. -/
def jsOrNull (v : Option Json) : Option Json :=
  match v with
  | some j => if j.truthy then some j else none
  | none => none

/-- `typeof v === 'number' ? v : null` (source lines 52-57): keeps the
value only when it is a JSON number. -/
def numField (v : Option Json) : Option ℚ :=
  match v with
  | some (.num q) => some q
  | _ => none

/-- The coerced raw sample built at source lines 51-59 (`const reading`).
`accel` and `gyro` store the incoming JSON value verbatim whenever it is
truthy (`body.accel || null` performs no shape validation). -/
structure RawSample where
  temperature : Option ℚ
  humidity : Option ℚ
  accel : Option Json
  gyro : Option Json
  lat : Option ℚ
  lon : Option ℚ
  timestamp : ℤ

/-- Source lines 51-59: coercion of the request body into a `RawSample`,
stamped with the current time. -/
def mkReading (body : Json) (now : ℤ) : RawSample :=
  { temperature := numField (body.get "temperature")
    humidity := numField (body.get "humidity")
    accel := jsOrNull (body.get "accel")
    gyro := jsOrNull (body.get "gyro")
    lat := numField (body.get "lat")
    lon := numField (body.get "lon")
    timestamp := now }

/-- The two string constants assigned to `intensityUnit` (source lines 84
and 101): `m_s` is the spec's `speed`, `m_s2` the spec's `acceleration`. -/
inductive IntensityUnit where
  | m_s
  | m_s2
deriving DecidableEq

/-- The enriched reading published at source line 153:
`{ ...reading, intensity, intensityUnit, pitch, roll, alerts }`.
`intensity` is `Option (Option ℝ)`: the outer layer is JavaScript
`null`-or-number, the inner layer is NaN-or-real. -/
structure EnrichedReading where
  raw : RawSample
  intensity : Option (Option ℝ)
  intensityUnit : Option IntensityUnit
  pitch : Option ℝ
  roll : Option ℝ
  alerts : List String

/-- The module-level mutable state (source lines 19-20). -/
structure EnricherState where
  previousReading : Option RawSample
  latestReading : Option EnrichedReading

/-- Source lines 19-20: both slots start as `null`. -/
def initialState : EnricherState :=
  { previousReading := none, latestReading := none }

/-- An HTTP JSON response as produced by the three endpoints. -/
structure ApiResponse where
  status : ℕ
  ok : Bool
  data : Option EnrichedReading
  errMsg : Option String

/-- Source line 156: `res.status(200).json({ ok: true })`. -/
def ingestOkResponse : ApiResponse :=
  { status := 200, ok := true, data := none, errMsg := none }

/-- Source line 159: `res.status(400).json({ ok: false, error: 'Invalid payload' })`
(the `catch` arm; unreachable on JSON-representable inputs, see module
comment). -/
def invalidPayloadResponse : ApiResponse :=
  { status := 400, ok := false, data := none, errMsg := some "Invalid payload" }

noncomputable section

/-- Source lines 22-24. -/
def toRadians (deg : ℝ) : ℝ := deg * Real.pi / 180

/-- Source lines 26-28. -/
def toDegrees (rad : ℝ) : ℝ := rad * 180 / Real.pi

/-- JavaScript `Math.atan2 y x` on non-NaN arguments (standard piecewise
definition; all uses in this program have non-NaN arguments or are
NaN-guarded through `Option.map₂`). -/
def atan2 (y x : ℝ) : ℝ :=
  if 0 < x then Real.arctan (y / x)
  else if x < 0 then
    (if 0 ≤ y then Real.arctan (y / x) + Real.pi else Real.arctan (y / x) - Real.pi)
  else if 0 < y then Real.pi / 2
  else if y < 0 then -(Real.pi / 2)
  else 0

/-- Source lines 31-43: haversine distance in meters. -/
def haversineDistanceMeters (lat1 lon1 lat2 lon2 : ℝ) : ℝ :=
  let R : ℝ := 6371000
  let dLat := toRadians (lat2 - lat1)
  let dLon := toRadians (lon2 - lon1)
  let a :=
    Real.sin (dLat / 2) * Real.sin (dLat / 2) +
      Real.cos (toRadians lat1) * Real.cos (toRadians lat2) *
        Real.sin (dLon / 2) * Real.sin (dLon / 2)
  let c := 2 * atan2 (Real.sqrt a) (Real.sqrt (1 - a))
  R * c

/-- NaN-propagating addition (`none` = NaN). -/
def jsAdd : Option ℝ → Option ℝ → Option ℝ := Option.map₂ (· + ·)

/-- NaN-propagating multiplication. -/
def jsMul : Option ℝ → Option ℝ → Option ℝ := Option.map₂ (· * ·)

/-- NaN-propagating subtraction. -/
def jsSub : Option ℝ → Option ℝ → Option ℝ := Option.map₂ (· - ·)

/-- NaN-propagating `Math.max` (`Math.max(a, NaN)` is `NaN`). -/
def jsMax : Option ℝ → Option ℝ → Option ℝ := Option.map₂ max

/-- NaN-propagating `Math.sqrt` (negative arguments cannot occur on the
paths below: every radicand is a sum of squares). -/
def jsSqrt : Option ℝ → Option ℝ := Option.map Real.sqrt

/-- JavaScript `v || d` on a NaN-or-real value: `NaN` and `0` are falsy
and fall through to `d` (source lines 105-106, the `1e-9` floors). -/
def jsOrFloor (v : Option ℝ) (d : ℝ) : ℝ :=
  match v with
  | some x => if x = 0 then d else x
  | none => d

/-- JavaScript `v > c` on a NaN-or-real value: `NaN > c` is `false`. -/
def jsGT (v : Option ℝ) (c : ℝ) : Bool :=
  match v with
  | some t => decide (c < t)
  | none => false

/-- Source lines 69-85, condition and value of the GPS intensity branch:
`some` of `dMeters / (dtMs / 1000)` exactly when the current reading and a
stored previous reading both carry numeric `lat`/`lon`. -/
def gpsIntensity (r : RawSample) : Option RawSample → Option ℝ
  | none => none
  | some p =>
    match r.lat, r.lon, p.lat, p.lon with
    | some la, some lo, some pla, some plo =>
      some (haversineDistanceMeters (pla : ℝ) (plo : ℝ) (la : ℝ) (lo : ℝ) /
        (((max 1 (r.timestamp - p.timestamp) : ℤ) : ℝ) / 1000))
    | _, _, _, _ => none

/-- Source line 87, condition of the accelerometer branch:
`reading.accel && typeof reading.accel.x === 'number'`.  Yields the
numeric `x` component together with the stored accel value. -/
def accelData : Option Json → Option (ℚ × Json)
  | some j =>
    if j.truthy then
      match j.get "x" with
      | some (.num q) => some (q, j)
      | _ => none
    else none
  | none => none

/-- Source lines 88-94: `Number(reading.accel.k)` for an axis `k`, divided
by the scale 16384 LSB/g.  `none` is the NaN produced when the component
is missing or not numerically coercible. -/
def gAxis (j : Json) (k : String) : Option ℝ :=
  (jsNumber (j.get k)).map fun q => (q : ℝ) / 16384

/-- Source line 92: `gX = ax / scale` where `ax` is the guarded numeric
`x` component, hence never NaN. -/
def gXof (ax : ℚ) : ℝ := (ax : ℝ) / 16384

/-- Source lines 97-100: `max(0, sqrt(gX² + gY² + gZ²) - 1) * 9.80665`,
the accelerometer-derived intensity in m/s². -/
def accelIntensity (ax : ℚ) (j : Json) : Option ℝ :=
  let magG := jsSqrt (jsAdd (jsAdd (some (gXof ax * gXof ax))
    (jsMul (gAxis j "y") (gAxis j "y"))) (jsMul (gAxis j "z") (gAxis j "z")))
  let linG := jsMax (some 0) (jsSub magG (some 1))
  jsMul linG (some 9.80665)

/-- Source lines 104-105: `atan2(gX, sqrt(gY² + gZ²) || 1e-9)` in radians;
NaN (`none`) exactly when `gX` would be NaN, which the numeric guard on
`x` rules out, so this is always `some`. -/
def pitchRadOf (ax : ℚ) (j : Json) : Option ℝ :=
  let denomPitch := jsSqrt (jsAdd (jsMul (gAxis j "y") (gAxis j "y"))
    (jsMul (gAxis j "z") (gAxis j "z")))
  Option.map₂ atan2 (some (gXof ax)) (some (jsOrFloor denomPitch 1e-9))

/-- Source line 106: `atan2(-gY, gZ || 1e-9)` in radians; NaN (`none`)
exactly when `gY` is NaN. -/
def rollRadOf (j : Json) : Option ℝ :=
  Option.map₂ atan2 ((gAxis j "y").map Neg.neg) (some (jsOrFloor (gAxis j "z") 1e-9))

/-- Source line 107: `Number.isFinite(pitchRad) ? toDegrees(pitchRad) : null`. -/
def orientationPitch (ax : ℚ) (j : Json) : Option ℝ :=
  (pitchRadOf ax j).map toDegrees

/-- Source line 108: `Number.isFinite(rollRad) ? toDegrees(rollRad) : null`. -/
def orientationRoll (j : Json) : Option ℝ :=
  (rollRadOf j).map toDegrees

/-- Source lines 114-122: the temperature alert ladder. -/
def temperatureAlerts : Option ℚ → List String
  | none => []
  | some t =>
    if t > 50 then ["🔥 DANGEROUS: Temperature extremely high"]
    else if t > 40 then ["⚠️ High temperature detected"]
    else if t < 0 then ["❄️ Temperature below freezing"]
    else []

/-- Source lines 124-130: the humidity alert ladder. -/
def humidityAlerts : Option ℚ → List String
  | none => []
  | some h =>
    if h > 90 then ["💧 Humidity critically high"]
    else if h < 20 then ["🌵 Humidity very low"]
    else []

/-- Source lines 132-134: the movement alert, fired only for a GPS-derived
(`m_s`) intensity above 20 m/s (`typeof intensity === 'number'` is the
`Option.isSome` test; NaN compares false). -/
def movementAlert (u : Option IntensityUnit) (i : Option (Option ℝ)) : List String :=
  if decide (u = some IntensityUnit.m_s) && i.isSome && jsGT (i.bind fun v => v) 20 then
    ["🚗 Sudden high movement speed detected"]
  else []

/-- Source lines 136-151: the tilt and shock checks on the absolute raw
accelerometer counts, evaluated whenever `reading.accel` is truthy. -/
def impactAlerts (accel : Option Json) : List String :=
  match accel with
  | none => []
  | some j =>
    if j.truthy then
      let axAbs := (jsNumber (some (jsOr (j.get "x") (Json.num 0)))).map abs
      let ayAbs := (jsNumber (some (jsOr (j.get "y") (Json.num 0)))).map abs
      let azAbs := (jsNumber (some (jsOr (j.get "z") (Json.num 0)))).map abs
      let tiltA : List String :=
        match azAbs with
        | some a => if a < 12000 then ["📦 Device might be tilted or falling"] else []
        | none => []
      let total : Option ℝ :=
        (Option.map₂ (· + ·) (Option.map₂ (· + ·) (axAbs.map fun a => a * a)
          (ayAbs.map fun a => a * a)) (azAbs.map fun a => a * a)).map
          fun s => Real.sqrt ((s : ℚ) : ℝ)
      let shockA : List String :=
        if jsGT total 15000 then ["💥 Sudden impact/shock detected!"] else []
      tiltA ++ shockA
    else []

/-- Source lines 61-153: derivation of intensity, unit, orientation and
alerts from the coerced reading and the stored previous sample, assembled
into the record published as `latestReading`. -/
def enrichReading (r : RawSample) (prev : Option RawSample) : EnrichedReading :=
  let gpsInt := gpsIntensity r prev
  let int0 : Option (Option ℝ) := gpsInt.map some
  let unit0 : Option IntensityUnit := gpsInt.map fun _ => IntensityUnit.m_s
  let derived : Option (Option ℝ) × Option IntensityUnit × Option ℝ × Option ℝ :=
    match accelData r.accel with
    | some (ax, j) =>
      let iu :=
        if int0.isNone then (some (accelIntensity ax j), some IntensityUnit.m_s2)
        else (int0, unit0)
      (iu.1, iu.2, orientationPitch ax j, orientationRoll j)
    | none => (int0, unit0, none, none)
  { raw := r
    intensity := derived.1
    intensityUnit := derived.2.1
    pitch := derived.2.2.1
    roll := derived.2.2.2
    alerts := temperatureAlerts r.temperature ++ humidityAlerts r.humidity ++
      movementAlert derived.2.1 derived.1 ++ impactAlerts r.accel }

/-- Source lines 46-161, the `POST /api/readings` handler: coerce the body
(`req.body || {}`), enrich against the stored previous sample, replace
both state slots, and answer `{ ok: true }`.  Total — see the module
comment for why the `catch` arm is unreachable. -/
def ingest (reqBody : Option Json) (now : ℤ) (st : EnricherState) :
    EnricherState × ApiResponse :=
  let body := jsOr reqBody (Json.obj [])
  let reading := mkReading body now
  let er := enrichReading reading st.previousReading
  ({ previousReading := some reading, latestReading := some er }, ingestOkResponse)

/-- The `latest` accessor underlying `GET /api/latest` (source lines
165-170): returns the stored enriched reading without mutation. -/
def getLatest (st : EnricherState) : Option EnrichedReading :=
  st.latestReading

/-- Source lines 165-170, the full `GET /api/latest` response. -/
def latestEndpoint (st : EnricherState) : ApiResponse :=
  match st.latestReading with
  | none => { status := 200, ok := true, data := none, errMsg := none }
  | some er => { status := 200, ok := true, data := some er, errMsg := none }

end

/-! Concrete request bodies used by witnesses and counterexamples. -/

/-- The impact-scenario accelerometer object `{x:20000, y:0, z:0}`. -/
def impactAccelBody : Json :=
  Json.obj [("accel", Json.obj [("x", Json.num 20000), ("y", Json.num 0), ("z", Json.num 0)])]

/-- The all-zero accelerometer object `{x:0, y:0, z:0}`. -/
def zeroAccelBody : Json :=
  Json.obj [("accel", Json.obj [("x", Json.num 0), ("y", Json.num 0), ("z", Json.num 0)])]

/-- An accel object that lacks the `x` component but has numeric `y`/`z`. -/
def noXAccelObj : Json :=
  Json.obj [("y", Json.num 0), ("z", Json.num 16384)]

/-- A body whose `accel` field is `noXAccelObj`. -/
def noXAccelBody : Json :=
  Json.obj [("accel", noXAccelObj)]

/-- A well-formed accel object `{x:1, y:2, z:3}`. -/
def xyzAccelObj : Json :=
  Json.obj [("x", Json.num 1), ("y", Json.num 2), ("z", Json.num 3)]

/-- A body carrying `xyzAccelObj`. -/
def xyzAccelBody : Json :=
  Json.obj [("accel", xyzAccelObj)]

/-- A GPS body `{lat:1, lon:2, accel:{x:100}}` for the current sample. -/
def gpsBodyCur : Json :=
  Json.obj [("lat", Json.num 1), ("lon", Json.num 2),
    ("accel", Json.obj [("x", Json.num 100)])]

/-- A GPS body `{lat:3, lon:4}` for the previous sample. -/
def gpsBodyPrev : Json :=
  Json.obj [("lat", Json.num 3), ("lon", Json.num 4)]

/-- A body exercising every coercion case: non-numeric temperature,
humidity and lon, a missing lat key, a truthy non-object accel and a
falsy gyro. -/
def coercionBody : Json :=
  Json.obj [("temperature", Json.str "hot"), ("humidity", Json.bool true),
    ("lon", Json.arr []), ("accel", Json.num 17), ("gyro", Json.num 0)]

/-- A body whose `accel` field is the number `17` — truthy but not an
object of shape `{x,y,z}`. -/
def numericAccelBody : Json :=
  Json.obj [("accel", Json.num 17)]

/-! Helper lemmas shared by several claim proofs. -/

/-- The published enriched reading always carries the coerced raw sample
unchanged (`{ ...reading, ... }` at source line 153). -/
theorem enrichReading_raw (r : RawSample) (prev : Option RawSample) :
    (enrichReading r prev).raw = r := rfl

/-! Claim C1. -/

/-- Claim C1 (corrected), counterexample to the claim as stated: an
absent request body does not make ingest fail — `req.body || {}`
replaces it by an empty object and the handler answers `200 {ok:true}`,
not the `Invalid payload` failure the claim requires for absent bodies. -/
theorem ingest_absent_body_succeeds :
    (ingest none 0 initialState).2 = ingestOkResponse ∧
    (ingest none 0 initialState).2 ≠ invalidPayloadResponse := by
  refine ⟨rfl, ?_⟩
  intro h
  simp [ingest, ingestOkResponse, invalidPayloadResponse] at h

/-- Claim C1 (amended): ingest has no failure mode at all — for every
request body (absent, non-object, or object, with any combination of
absent or malformed optional fields) the handler returns the success
response `200 {ok:true}`. -/
theorem ingest_always_ok (reqBody : Option Json) (now : ℤ) (st : EnricherState) :
    (ingest reqBody now st).2 = ingestOkResponse := rfl

/-! Claim C2. -/

/-- Claim C2 (corrected), counterexample to the claim as stated: a
structurally invalid (absent-body) ingest is not rejected — it replaces
`latestReading`, so the result of a subsequent `getLatest` changes. -/
theorem invalid_ingest_changes_latest :
    getLatest (ingest none 5 (ingest (some (Json.obj [])) 0 initialState).1).1 ≠
      getLatest (ingest (some (Json.obj [])) 0 initialState).1 := by
  intro h
  have h2 := congrArg (fun o => o.map fun e => e.raw.timestamp) h
  simp [getLatest, ingest, enrichReading_raw, mkReading] at h2

/-- Claim C2 (amended): no ingest fails, and every ingest — including one
with a structurally invalid (absent or non-object) body, which is coerced
to an empty object — fully replaces both state slots together:
`previous` with the coerced raw sample and `latest` with the enriched
reading computed from it; the two slots are never partially updated. -/
theorem ingest_replaces_both_slots (reqBody : Option Json) (now : ℤ) (st : EnricherState) :
    (ingest reqBody now st).1.previousReading =
      some (mkReading (jsOr reqBody (Json.obj [])) now) ∧
    (ingest reqBody now st).1.latestReading =
      some (enrichReading (mkReading (jsOr reqBody (Json.obj [])) now) st.previousReading) :=
  ⟨rfl, rfl⟩

/-! Claim C3. -/

/-- Claim C3 (corrected), counterexample to the claim as stated: the
ingest response carries no enriched reading (`res.json({ok:true})`, source
line 156) even though one was computed and stored, so ingest does not
return the newly computed EnrichedReading. -/
theorem ingest_response_lacks_reading :
    (ingest (some (Json.obj [])) 0 initialState).2.data = none ∧
    getLatest (ingest (some (Json.obj [])) 0 initialState).1 ≠ none := by
  refine ⟨rfl, ?_⟩
  simp [getLatest, ingest]

/-- Claim C3 (amended): a successful ingest responds `{ok:true}` without
the reading, and `getLatest()` immediately after a valid ingest returns
exactly the EnrichedReading that this ingest computed and stored. -/
theorem getLatest_after_ingest (reqBody : Option Json) (now : ℤ) (st : EnricherState) :
    getLatest (ingest reqBody now st).1 =
      some (enrichReading (mkReading (jsOr reqBody (Json.obj [])) now) st.previousReading) ∧
    (ingest reqBody now st).2.data = none :=
  ⟨rfl, rfl⟩

/-! Claim C4. -/

/-- Claim C4 (corrected), counterexample to the claim as stated: the body
`{accel: 17}` has an accel field that is not an object with numeric
`x/y/z`, yet the coerced RawSample stores it verbatim (`body.accel ||
null` keeps every truthy value), not as absent. -/
theorem malformed_accel_stored_verbatim :
    (mkReading numericAccelBody 0).accel = some (Json.num 17) ∧
    (mkReading numericAccelBody 0).accel ≠ none := by
  refine ⟨rfl, ?_⟩
  simp [mkReading, numericAccelBody, jsOrNull, Json.get, Json.truthy]

/-- Claim C4 (amended): every scalar field (temperature, humidity, lat,
lon) whose incoming value is missing or not a JSON number is stored as
absent; `accel` and `gyro` are each stored as absent exactly when the
incoming value is missing or falsy, and are stored verbatim — with no
shape validation — when truthy; and no malformed optional field ever
causes the ingest to fail. -/
theorem field_coercion_policy :
    (∀ (body : Json) (now : ℤ) (v : Json),
      body.get "temperature" = some v → (∀ q, v ≠ Json.num q) →
      (mkReading body now).temperature = none) ∧
    (∀ (body : Json) (now : ℤ) (v : Json),
      body.get "humidity" = some v → (∀ q, v ≠ Json.num q) →
      (mkReading body now).humidity = none) ∧
    (∀ (body : Json) (now : ℤ) (v : Json),
      body.get "lat" = some v → (∀ q, v ≠ Json.num q) →
      (mkReading body now).lat = none) ∧
    (∀ (body : Json) (now : ℤ) (v : Json),
      body.get "lon" = some v → (∀ q, v ≠ Json.num q) →
      (mkReading body now).lon = none) ∧
    (∀ (body : Json) (now : ℤ),
      body.get "temperature" = none → (mkReading body now).temperature = none) ∧
    (∀ (body : Json) (now : ℤ),
      body.get "humidity" = none → (mkReading body now).humidity = none) ∧
    (∀ (body : Json) (now : ℤ),
      body.get "lat" = none → (mkReading body now).lat = none) ∧
    (∀ (body : Json) (now : ℤ),
      body.get "lon" = none → (mkReading body now).lon = none) ∧
    (∀ (body : Json) (now : ℤ) (v : Json),
      body.get "accel" = some v → v.truthy = true →
      (mkReading body now).accel = some v) ∧
    (∀ (body : Json) (now : ℤ) (v : Json),
      body.get "accel" = some v → v.truthy = false →
      (mkReading body now).accel = none) ∧
    (∀ (body : Json) (now : ℤ),
      body.get "accel" = none → (mkReading body now).accel = none) ∧
    (∀ (body : Json) (now : ℤ) (v : Json),
      body.get "gyro" = some v → v.truthy = true →
      (mkReading body now).gyro = some v) ∧
    (∀ (body : Json) (now : ℤ) (v : Json),
      body.get "gyro" = some v → v.truthy = false →
      (mkReading body now).gyro = none) ∧
    (∀ (body : Json) (now : ℤ),
      body.get "gyro" = none → (mkReading body now).gyro = none) ∧
    (∀ (body : Json) (now : ℤ) (st : EnricherState),
      (ingest (some body) now st).2 = ingestOkResponse) := by
  refine ⟨?_, ?_, ?_, ?_, ?_, ?_, ?_, ?_, ?_, ?_, ?_, ?_, ?_, ?_, ?_⟩
  · intro body now v hv hnum
    cases v <;> simp [mkReading, numField, hv]
    exact absurd rfl (hnum _)
  · intro body now v hv hnum
    cases v <;> simp [mkReading, numField, hv]
    exact absurd rfl (hnum _)
  · intro body now v hv hnum
    cases v <;> simp [mkReading, numField, hv]
    exact absurd rfl (hnum _)
  · intro body now v hv hnum
    cases v <;> simp [mkReading, numField, hv]
    exact absurd rfl (hnum _)
  · intro body now hv
    simp [mkReading, numField, hv]
  · intro body now hv
    simp [mkReading, numField, hv]
  · intro body now hv
    simp [mkReading, numField, hv]
  · intro body now hv
    simp [mkReading, numField, hv]
  · intro body now v hv ht
    simp [mkReading, jsOrNull, hv, ht]
  · intro body now v hv ht
    simp [mkReading, jsOrNull, hv, ht]
  · intro body now hv
    simp [mkReading, jsOrNull, hv]
  · intro body now v hv ht
    simp [mkReading, jsOrNull, hv, ht]
  · intro body now v hv ht
    simp [mkReading, jsOrNull, hv, ht]
  · intro body now hv
    simp [mkReading, jsOrNull, hv]
  · intro body now st
    rfl

/-- Claim C4 witness: at the concrete body `{temperature: "hot",
humidity: true, lon: [], accel: 17, gyro: 0}` the non-numeric
temperature, humidity and lon coerce to absent, the missing lat is
absent, the truthy numeric accel is stored verbatim, the falsy gyro is
absent, and ingest succeeds. -/
theorem field_coercion_policy_witness :
    (mkReading coercionBody 0).temperature = none ∧
    (mkReading coercionBody 0).humidity = none ∧
    (mkReading coercionBody 0).lat = none ∧
    (mkReading coercionBody 0).lon = none ∧
    (mkReading coercionBody 0).accel = some (Json.num 17) ∧
    (mkReading coercionBody 0).gyro = none ∧
    (ingest (some coercionBody) 0 initialState).2 = ingestOkResponse := by
  obtain ⟨h1, h2, -, h4, -, -, h7, -, h9, -, -, -, h13, -, h15⟩ := field_coercion_policy
  exact ⟨h1 coercionBody 0 (Json.str "hot") rfl (fun q => by simp),
    h2 coercionBody 0 (Json.bool true) rfl (fun q => by simp),
    h7 coercionBody 0 rfl,
    h4 coercionBody 0 (Json.arr []) rfl (fun q => by simp),
    h9 coercionBody 0 (Json.num 17) rfl rfl,
    h13 coercionBody 0 (Json.num 0) rfl rfl,
    h15 coercionBody 0 initialState⟩

/-! Claim C5. -/

/-- Claim C5 (confirmed): GPS has strict priority for intensity — when
the current and the stored previous sample both carry numeric `lat`/`lon`
the intensity is the haversine distance between the two points divided by
`max(1, currentTs - previousTs) / 1000`, with unit `m_s` (speed), even
when accel is also present; and the accelerometer unit `m_s2` can only
appear when the GPS intensity was not computed. -/
theorem gps_priority_intensity :
    (∀ (r p : RawSample) (la lo pla plo : ℚ),
      r.lat = some la → r.lon = some lo → p.lat = some pla → p.lon = some plo →
      (enrichReading r (some p)).intensity =
        some (some (haversineDistanceMeters (pla : ℝ) (plo : ℝ) (la : ℝ) (lo : ℝ) /
          (((max 1 (r.timestamp - p.timestamp) : ℤ) : ℝ) / 1000))) ∧
      (enrichReading r (some p)).intensityUnit = some IntensityUnit.m_s) ∧
    (∀ (r : RawSample) (prev : Option RawSample),
      (enrichReading r prev).intensityUnit = some IntensityUnit.m_s2 →
      (gpsIntensity r prev).isSome = false) := by
  constructor
  · intro r p la lo pla plo h1 h2 h3 h4
    have hg : gpsIntensity r (some p) =
        some (haversineDistanceMeters (pla : ℝ) (plo : ℝ) (la : ℝ) (lo : ℝ) /
          (((max 1 (r.timestamp - p.timestamp) : ℤ) : ℝ) / 1000)) := by
      simp [gpsIntensity, h1, h2, h3, h4]
    rcases ha : accelData r.accel with _ | ⟨ax, j⟩ <;> simp [enrichReading, hg, ha]
  · intro r prev h
    rcases hg : gpsIntensity r prev with _ | d
    · simp
    · rcases ha : accelData r.accel with _ | ⟨ax, j⟩ <;>
        simp [enrichReading, hg, ha] at h

/-- Claim C5 witness: for the concrete samples built from
`{lat:1, lon:2, accel:{x:100}}` at t=1000 and `{lat:3, lon:4}` at t=0,
the hypotheses hold and the GPS formula with unit `m_s` results, despite
the present accel field. -/
theorem gps_priority_intensity_witness :
    (mkReading gpsBodyCur 1000).lat = some 1 ∧
    (mkReading gpsBodyCur 1000).lon = some 2 ∧
    (mkReading gpsBodyPrev 0).lat = some 3 ∧
    (mkReading gpsBodyPrev 0).lon = some 4 ∧
    (mkReading gpsBodyCur 1000).accel = some (Json.obj [("x", Json.num 100)]) ∧
    (enrichReading (mkReading gpsBodyCur 1000) (some (mkReading gpsBodyPrev 0))).intensity =
      some (some (haversineDistanceMeters ((3 : ℚ) : ℝ) ((4 : ℚ) : ℝ) ((1 : ℚ) : ℝ) ((2 : ℚ) : ℝ) /
        (((max 1 ((mkReading gpsBodyCur 1000).timestamp - (mkReading gpsBodyPrev 0).timestamp) : ℤ) : ℝ) / 1000))) ∧
    (enrichReading (mkReading gpsBodyCur 1000) (some (mkReading gpsBodyPrev 0))).intensityUnit =
      some IntensityUnit.m_s := by
  refine ⟨rfl, rfl, rfl, rfl, rfl, ?_, ?_⟩
  · exact (gps_priority_intensity.1 (mkReading gpsBodyCur 1000) (mkReading gpsBodyPrev 0)
      1 2 3 4 rfl rfl rfl rfl).1
  · exact (gps_priority_intensity.1 (mkReading gpsBodyCur 1000) (mkReading gpsBodyPrev 0)
      1 2 3 4 rfl rfl rfl rfl).2

/-! Claim C6. -/

/-- Claim C6 (corrected), counterexample to the claim as stated: the body
`{accel: {y:0, z:16384}}` stores a present accel field, and the roll
angle the spec's formula yields for it is finite (`atan2(-0, 1) = 0`), yet
the pipeline attaches no `rollDeg` (and no `pitchDeg`) because the branch
additionally requires a numeric `x` component. -/
theorem accel_without_x_roll_absent :
    (mkReading noXAccelBody 0).accel = some noXAccelObj ∧
    orientationRoll noXAccelObj = some 0 ∧
    (enrichReading (mkReading noXAccelBody 0) none).roll = none ∧
    (enrichReading (mkReading noXAccelBody 0) none).pitch = none := by
  refine ⟨rfl, ?_, ?_, ?_⟩
  · simp [orientationRoll, rollRadOf, gAxis, jsNumber, Json.toNumber, Json.get,
      noXAccelObj, jsOrFloor, Option.map₂, atan2, toDegrees, List.lookup]
  · simp [enrichReading, mkReading, accelData, noXAccelBody, noXAccelObj, jsOrNull,
      Json.get, Json.truthy, gpsIntensity, List.lookup]
  · simp [enrichReading, mkReading, accelData, noXAccelBody, noXAccelObj, jsOrNull,
      Json.get, Json.truthy, gpsIntensity, List.lookup]

/-- Claim C6 (amended): pitch and roll are computed and attached exactly
when the stored accel value is truthy with a numeric `x` component (not
merely present); when they are computed, they are the same whichever
branch produced the intensity (any `prev`), and an output is absent
exactly when its angle is NaN (`pitchRad` never is, `rollRad` is NaN iff
the `y` component coerces to NaN). -/
theorem orientation_requires_numeric_x :
    (∀ (r : RawSample) (prev : Option RawSample) (ax : ℚ) (j : Json),
      accelData r.accel = some (ax, j) →
      (enrichReading r prev).pitch = orientationPitch ax j ∧
      (enrichReading r prev).roll = orientationRoll j) ∧
    (∀ (r : RawSample) (prev : Option RawSample),
      accelData r.accel = none →
      (enrichReading r prev).pitch = none ∧ (enrichReading r prev).roll = none) ∧
    (∀ (ax : ℚ) (j : Json),
      (orientationPitch ax j = none ↔ pitchRadOf ax j = none) ∧
      (orientationRoll j = none ↔ rollRadOf j = none) ∧
      (pitchRadOf ax j).isSome = true ∧
      (rollRadOf j = none ↔ jsNumber (j.get "y") = none)) := by
  refine ⟨?_, ?_, ?_⟩
  · intro r prev ax j ha
    constructor <;> simp [enrichReading, ha]
  · intro r prev ha
    constructor <;> simp [enrichReading, ha]
  · intro ax j
    refine ⟨by simp [orientationPitch], by simp [orientationRoll], ?_, ?_⟩
    · simp [pitchRadOf, Option.map₂]
    · rcases hy : jsNumber (j.get "y") with _ | q <;>
        simp [rollRadOf, Option.map₂, gAxis, hy]

/-- Claim C6 witness: for the well-formed accel object `{x:1, y:2, z:3}`
the branch hypothesis holds and pitch/roll are attached as the
orientation outputs, with no previous sample stored. -/
theorem orientation_requires_numeric_x_witness :
    accelData (mkReading xyzAccelBody 0).accel = some (1, xyzAccelObj) ∧
    (enrichReading (mkReading xyzAccelBody 0) none).pitch = orientationPitch 1 xyzAccelObj ∧
    (enrichReading (mkReading xyzAccelBody 0) none).roll = orientationRoll xyzAccelObj :=
  ⟨rfl,
   (orientation_requires_numeric_x.1 (mkReading xyzAccelBody 0) none 1 xyzAccelObj rfl).1,
   (orientation_requires_numeric_x.1 (mkReading xyzAccelBody 0) none 1 xyzAccelObj rfl).2⟩

/-! Claim C7. -/

/-- Claim C7 (confirmed): for accel `{x:20000, y:0, z:0}` the tilt check
(`|az| = 0 < 12000`) and the shock check (`sqrt(ax²+ay²+az²) = 20000 >
15000`) both fire, and the alerts list contains the tilted/falling alert
immediately before the shock alert. -/
theorem impact_alert_order :
    (enrichReading (mkReading impactAccelBody 0) none).alerts =
      ["📦 Device might be tilted or falling", "💥 Sudden impact/shock detected!"] := by
  simp [enrichReading, mkReading, accelData, gpsIntensity, numField, jsOrNull, jsOr,
    Json.get, Json.truthy, Json.toNumber, jsNumber, temperatureAlerts, humidityAlerts,
    movementAlert, impactAlerts, jsGT, jsAdd, jsMul, jsSub, jsMax, jsSqrt, Option.map₂,
    accelIntensity, List.lookup, impactAccelBody]
  norm_num

/-! Claim C8. -/

/-- Claim C8 (confirmed): for accel `{x:0, y:0, z:0}` no division error
can occur (the embedding is total); the zero pitch denominator and zero
roll divisor are replaced by the `1e-9` floor (`jsOrFloor (some 0) d = d`),
and both pitch and roll come out as the finite value `0` — present finite
reals, never an exception or a non-numeric value. -/
theorem orientation_zero_floor :
    jsOrFloor (some 0) 1e-9 = 1e-9 ∧
    (enrichReading (mkReading zeroAccelBody 0) none).pitch = some 0 ∧
    (enrichReading (mkReading zeroAccelBody 0) none).roll = some 0 := by
  refine ⟨by simp [jsOrFloor], ?_, ?_⟩ <;>
    · simp [enrichReading, mkReading, accelData, gpsIntensity, numField, jsOrNull, jsOr,
        Json.get, Json.truthy, Json.toNumber, jsNumber, orientationPitch, orientationRoll,
        pitchRadOf, rollRadOf, gAxis, gXof, jsOrFloor, jsSqrt, jsAdd, jsMul, Option.map₂,
        atan2, toDegrees, List.lookup, zeroAccelBody]
      norm_num

/-! Claim C9. -/

/-- Claim C9 (confirmed): after every ingest the published `latest`
reading carries as its raw fields exactly the sample now stored in
`previous`, and it was computed by enriching that sample against whatever
`previous` held before the update. -/
theorem latest_derived_from_previous (reqBody : Option Json) (now : ℤ) (st : EnricherState) :
    ((ingest reqBody now st).1.latestReading).map EnrichedReading.raw =
      (ingest reqBody now st).1.previousReading ∧
    (ingest reqBody now st).1.latestReading =
      some (enrichReading (mkReading (jsOr reqBody (Json.obj [])) now) st.previousReading) := by
  constructor
  · simp [ingest, enrichReading_raw]
  · rfl

/-! Claim C10. -/

/-- Claim C10 (confirmed): in every enriched reading, `intensity` and
`intensityUnit` are null together; the unit is `m_s` (speed) exactly when
the GPS branch computed the intensity, and `m_s2` (acceleration) exactly
when the GPS branch did not fire but the accelerometer branch did. -/
theorem intensity_unit_pairing (r : RawSample) (prev : Option RawSample) :
    ((enrichReading r prev).intensity = none ↔ (enrichReading r prev).intensityUnit = none) ∧
    ((enrichReading r prev).intensityUnit = some IntensityUnit.m_s ↔
      (gpsIntensity r prev).isSome = true) ∧
    ((enrichReading r prev).intensityUnit = some IntensityUnit.m_s2 ↔
      ((gpsIntensity r prev).isSome = false ∧ (accelData r.accel).isSome = true)) := by
  rcases hg : gpsIntensity r prev with _ | d <;>
    rcases ha : accelData r.accel with _ | ⟨ax, j⟩ <;>
      simp [enrichReading, hg, ha]
